import Mathlib

/-!
Verification of the batch LLM-classification pipeline of `src/app.py`.

The development embeds the two orchestrator functions of the source:
* `run_ai_classifier` (step 2, lines 133-233): classifies the ingredient
  master list. Batch size 30, a digit-based line parser, periodic
  checkpointing every third batch and one unconditional final save.
* `run_first_pass_and_review` (step 3, lines 236-393): classifies products.
  Batch size 20, a positional line parser, the same checkpoint scheme,
  followed by the standardize/review phase and the final save.

Python strings are modelled as Lean `String`s manipulated through their
character lists; pandas cells are `Option String` (`none` is `NaN`, and
`astype(str)` renders `NaN` as `"nan"`).  Tables are `List`s of row
structures, addressed positionally, matching the `RangeIndex` the source
obtains from `pd.DataFrame(sheet.get_all_records())`.  The completion
client (`call_gemini`) is an external boundary and is modelled as a
function from the batch number to `Option String`: `none` is a raised
transport/API error, `some raw` a successful raw response.  Timestamps
(`datetime.now().strftime(...)`) are abstracted by a string `now` fixed
for the run.  Checkpoint writes (`sheet.clear(); sheet.update(...)`) are
modelled by a counter of full-table snapshot writes.
-/

/-! ### Python string primitives -/

/-- The whitespace characters of Python's `str.strip` / `\s` (ASCII range). -/
def isPySpace (c : Char) : Bool :=
  c == ' ' || c == '\t' || c == '\n' || c == '\r' || c == '\x0b' || c == '\x0c'

/-- `s.split(sep)` on character lists; `"".split(sep) = [""]`. -/
def splitChar (sep : Char) : List Char → List (List Char)
  | [] => [[]]
  | c :: cs =>
    if c == sep then [] :: splitChar sep cs
    else
      match splitChar sep cs with
      | [] => [[c]]
      | g :: gs => (c :: g) :: gs

/-- Python `raw.split(sep)` for a one-character separator. -/
def pySplit (sep : Char) (s : String) : List String :=
  (splitChar sep s.data).map String.mk

/-- Python `s.strip()`. -/
def pyStrip (s : String) : String :=
  String.mk (((s.data.dropWhile isPySpace).reverse.dropWhile isPySpace).reverse)

/-- Python `s.lower()` (ASCII letters; the keywords searched for are ASCII). -/
def pyLower (s : String) : String :=
  String.mk (s.data.map Char.toLower)

/-- Does `s` start with `pat`? -/
def startsWithList : List Char → List Char → Bool
  | _, [] => true
  | [], _ :: _ => false
  | c :: cs, p :: ps => c == p && startsWithList cs ps

/-- Substring occurrence test on character lists. -/
def hasSubList (s pat : List Char) : Bool :=
  match s with
  | [] => pat.isEmpty
  | _ :: cs => startsWithList s pat || hasSubList cs pat

/-- Python `pat in s`. -/
def pyIn (pat s : String) : Bool := hasSubList s.data pat.data

/-- The first maximal run of digits of a line: `re.findall(r"\d+", line)[0]`. -/
def firstNumToken : List Char → Option (List Char)
  | [] => none
  | c :: cs => if c.isDigit then some (c :: cs.takeWhile Char.isDigit) else firstNumToken cs

/-- Python `int` on a digit string. -/
def digitsVal (ds : List Char) : Nat :=
  ds.foldl (fun n c => 10 * n + (c.toNat - 48)) 0

/-- The row id recovered from a (stripped) line in the step-2 parser:
`int(re.findall(r"\d+", line)[0])` when the line holds a digit, else nothing. -/
def lineId (line : String) : Option Nat :=
  (firstNumToken line.data).map digitsVal

/-- Case-insensitive literal match of `pat` at the head of `s`,
returning the remaining characters (`re.IGNORECASE` on a literal). -/
def matchCI : List Char → List Char → Option (List Char)
  | s, [] => some s
  | [], _ :: _ => none
  | c :: cs, p :: ps => if c.toLower == p.toLower then matchCI cs ps else none

/-- The character class `[A-Za-zÀ-ÿ]` of the step-3 verdict regex. -/
def isWordLetter (c : Char) : Bool :=
  ('A' ≤ c && c ≤ 'Z') || ('a' ≤ c && c ≤ 'z') || ('À' ≤ c && c ≤ 'ÿ')

/-- One attempted match of `oordeel\s*[:：]\s*([A-Za-zÀ-ÿ]+)` (IGNORECASE)
anchored at the head of `cs`, returning group 1.  The greedy `\s*` needs no
backtracking here because whitespace is disjoint from `[:：]` and from the
letter class. -/
def oordeelHere (cs : List Char) : Option String :=
  match matchCI cs "oordeel".data with
  | none => none
  | some rest =>
    match rest.dropWhile isPySpace with
    | [] => none
    | c :: rest2 =>
      if c == ':' || c == '：' then
        let letters := (rest2.dropWhile isPySpace).takeWhile isWordLetter
        if letters.isEmpty then none else some (String.mk letters)
      else none

/-- `re.search` of the verdict pattern: first matching position wins. -/
def searchOordeel : List Char → Option String
  | [] => none
  | c :: cs =>
    match oordeelHere (c :: cs) with
    | some r => some r
    | none => searchOordeel cs

/-- One attempted match of `rationale\s*:\s*(.+)` (IGNORECASE) at the head of
`cs`, returning group 1.  When everything after the colon is whitespace but
non-empty, the greedy `\s*` backtracks one character so `(.+)` captures the
last whitespace character, as the Python regex engine does. -/
def rationaleHere (cs : List Char) : Option String :=
  match matchCI cs "rationale".data with
  | none => none
  | some rest =>
    match rest.dropWhile isPySpace with
    | [] => none
    | c :: rest2 =>
      if c == ':' then
        match rest2.dropWhile isPySpace with
        | t :: ts => some (String.mk (t :: ts))
        | [] =>
          match rest2.reverse with
          | [] => none
          | lastc :: _ => some (String.mk [lastc])
      else none

/-- `re.search` of the rationale pattern: first matching position wins. -/
def searchRationale : List Char → Option String
  | [] => none
  | c :: cs =>
    match rationaleHere (c :: cs) with
    | some r => some r
    | none => searchRationale cs

/-- Python `str.capitalize()`: first character upper-cased, rest lower-cased
(ASCII case mapping). -/
def pyCapitalize (s : String) : String :=
  match s.data with
  | [] => ""
  | c :: cs => String.mk (c.toUpper :: cs.map Char.toLower)

/-! ### Table primitives -/

/-- `df.at[i, col] = v`: replace the `i`-th row by `f` applied to it;
out-of-range indices leave the list unchanged (never reached by the source,
which guards every access). -/
def modifyAt (l : List α) (i : Nat) (f : α → α) : List α :=
  match l, i with
  | [], _ => []
  | x :: xs, 0 => f x :: xs
  | x :: xs, n + 1 => x :: modifyAt xs n f

/-- pandas `astype(str)` on a cell: `NaN` renders as `"nan"`. -/
def pdStr : Option String → String
  | none => "nan"
  | some s => s

/-- The positions of the rows selected by a boolean mask, in table order:
`df[mask]` where `mask` is computed row-wise by `p`. -/
def selectIdx (p : ρ → Bool) (df : List ρ) (d : ρ) : List Nat :=
  (List.range df.length).filter (fun j => p (df.getD j d))

/-- Fuel-driven worker for `chunksOf` (each step consumes at least one
element, so `l.length` fuel always suffices). -/
def chunksGo (n : Nat) : Nat → List Nat → List (List Nat)
  | _, [] => []
  | 0, l => [l]
  | fuel + 1, x :: xs => (x :: xs.take (n - 1)) :: chunksGo n fuel (xs.drop (n - 1))

/-- The batch slices `indices[i : i + size]` for `i = 0, size, 2*size, ...`. -/
def chunksOf (n : Nat) (l : List Nat) : List (List Nat) :=
  chunksGo n l.length l

/-! ### Step 2: `run_ai_classifier` (app.py lines 133-233) -/

/-- A row of the "Ingredienten Database" sheet (the columns the classifier
reads or writes). -/
structure Row2 where
  ingredient : String
  eiweetRol : Option String
  classificatie : Option String
  classificatieDatum : Option String
deriving DecidableEq

/-- An untouched blank row. -/
def blank2 : Row2 :=
  { ingredient := "", eiweetRol := none, classificatie := none, classificatieDatum := none }

/-- Line 149: `(df['Classificatie'].astype(str).str.strip() == "") | (df['Classificatie'].isna())`. -/
def unresolved2 (r : Row2) : Bool :=
  pyStrip (pdStr r.classificatie) == "" || r.classificatie.isNone

/-- Line 150: the index list of `to_process = df[mask]`. -/
def selector2 (df : List Row2) : List Nat :=
  selectIdx unresolved2 df blank2

/-- Lines 198-199: role keyword search in the lower-cased line. -/
def rolOf (clean : String) : String :=
  if pyIn "wel" clean then "Wel"
  else if pyIn "niet" clean then "Niet"
  else ""

/-- Lines 201-204: origin keyword search in the lower-cased line; the fixed
priority order is plantaardig, then dierlijk, then relevant. -/
def oorsprongOf (clean : String) : String :=
  if pyIn "plantaardig" clean then "Plantaardig"
  else if pyIn "dierlijk" clean then "Dierlijk"
  else if pyIn "relevant" clean then "Niet relevant"
  else ""

/-- Lines 208-210: the three cell writes of one committed step-2 line. -/
def commitRow2 (now rol oorsprong : String) (r : Row2) : Row2 :=
  { r with eiweetRol := some rol, classificatie := some oorsprong,
           classificatieDatum := some now }

/-- Lines 185-211, one iteration: strip the line, skip it when blank, recover
the id as the first digit run, search the keywords, and commit when the id is
a valid index of the full table and both fields are non-empty.  Returns the
new table and the increment of `count_processed`.  Note that no batch
information enters this function: the source checks `idx in df.index`, never
membership in the current batch. -/
def processLine2 (now : String) (df : List Row2) (rawLine : String) : List Row2 × Nat :=
  let line := pyStrip rawLine
  if line == "" then (df, 0)
  else
    match lineId line with
    | none => (df, 0)
    | some idx =>
      let clean := pyLower line
      let rol := rolOf clean
      let oorsprong := oorsprongOf clean
      if idx < df.length && rol != "" && oorsprong != "" then
        (modifyAt df idx (commitRow2 now rol oorsprong), 1)
      else (df, 0)

/-- One parser iteration threaded through the (table, `count_processed`)
accumulator. -/
def foldLine2 (now : String) (acc : List Row2 × Nat) (line : String) : List Row2 × Nat :=
  let r := processLine2 now acc.1 line
  (r.1, acc.2 + r.2)

/-- Lines 185-211: the whole response, line by line. -/
def processResponse2 (now : String) (df : List Row2) (raw : String) : List Row2 × Nat :=
  (pySplit '\n' raw).foldl (foldLine2 now) (df, 0)

/-! ### Step 3: `run_first_pass_and_review` (app.py lines 236-393) -/

/-- A row of the "Producten Input" sheet (the columns this stage reads or
writes). -/
structure Row3 where
  productnaam : String
  firstPassAI : Option String
  aiRationale : Option String
  firstPassDatum : Option String
  aiAntwoord : Option String
  eiweetgroepSupermarkt : Option String
  gestandaardiseerd : Option String
  reviewNodig : Option String
deriving DecidableEq

/-- An untouched blank row. -/
def blank3 : Row3 :=
  { productnaam := "", firstPassAI := none, aiRationale := none, firstPassDatum := none,
    aiAntwoord := none, eiweetgroepSupermarkt := none, gestandaardiseerd := none,
    reviewNodig := none }

/-- Line 259: `geldige_class = ['Dierlijk', 'Plantaardig', 'Combinatie']`. -/
def geldigeClass3 : List String := ["Dierlijk", "Plantaardig", "Combinatie"]

/-- Line 260: `~df['First pass AI'].astype(str).isin(geldige_class)`. -/
def unresolved3 (r : Row3) : Bool :=
  !(geldigeClass3.contains (pdStr r.firstPassAI))

/-- Line 261: the index list of `to_process = df[mask]`. -/
def selector3 (df : List Row3) : List Nat :=
  selectIdx unresolved3 df blank3

/-- Line 320-324: `re.search(r'oordeel\s*[:：]\s*([A-Za-zÀ-ÿ]+)', line, re.IGNORECASE)`,
then `.group(1).capitalize()`. -/
def oordeelOf (line : String) : Option String :=
  (searchOordeel line.data).map pyCapitalize

/-- Lines 327-328: `rationale_match.group(1).strip() if rationale_match else ""`. -/
def rationaleOf (line : String) : String :=
  match searchRationale line.data with
  | some g => pyStrip g
  | none => ""

/-- Line 308: keep the lines containing `"ID:"`, stripped. -/
def linesOf3 (raw : String) : List String :=
  ((pySplit '\n' raw).filter (fun l => pyIn "ID:" l)).map pyStrip

/-- Lines 311-336, one iteration on the pair (line, `real_idx`): the raw
AI answer is stored unconditionally; the verdict, rationale and timestamp
are stored (and `matches_in_batch` incremented) only when the verdict regex
matches.  `real_idx` is `batch_df.index[i]`, i.e. purely positional. -/
def commitLine3 (now : String) (acc : List Row3 × Nat) (p : String × Nat) : List Row3 × Nat :=
  let df1 := modifyAt acc.1 p.2 (fun r => { r with aiAntwoord := some p.1 })
  match oordeelOf p.1 with
  | none => (df1, acc.2)
  | some o =>
    (modifyAt df1 p.2 (fun r =>
      { r with firstPassAI := some o, aiRationale := some (rationaleOf p.1),
               firstPassDatum := some now }), acc.2 + 1)

/-- The committed value of one response line at its (positional) target row. -/
def rowCommit3 (now line : String) (r : Row3) : Row3 :=
  let r1 := { r with aiAntwoord := some line }
  match oordeelOf line with
  | none => r1
  | some o =>
    { r1 with firstPassAI := some o, aiRationale := some (rationaleOf line),
              firstPassDatum := some now }

/-- Lines 308-336: pair line `i` with batch item `i` (the loop breaks once
`i >= len(batch_df)`, and ends early when the response has fewer lines), and
commit each pair in order. -/
def parseResponse3 (now : String) (df : List Row3) (bIdx : List Nat) (raw : String) :
    List Row3 × Nat :=
  ((linesOf3 raw).zip bIdx).foldl (commitLine3 now) (df, 0)

/-- Line 361-366: `standardize`. -/
def standardize (val : String) : String :=
  let v := pyLower val
  if pyIn "combi" v then "Combinatie"
  else if pyIn "plantaardig" v then "Plantaardig"
  else if pyIn "dierlijk" v then "Dierlijk"
  else "Onbekend"

/-- Lines 370-375: `determine_review`, reading the First pass AI verdict and
the freshly standardized supermarket label. -/
def determineReview (r : Row3) : String :=
  let aiVal := pyStrip (pdStr r.firstPassAI)
  let smVal := pyStrip (pdStr r.gestandaardiseerd)
  if aiVal == "" || smVal == "Onbekend" then "ja"
  else if aiVal == smVal then "nee" else "ja"

/-- Lines 368-377 applied to one row. -/
def reviewRow (r : Row3) : Row3 :=
  let r1 := { r with gestandaardiseerd := some (standardize (pdStr r.eiweetgroepSupermarkt)) }
  { r1 with reviewNodig := some (determineReview r1) }

/-- Lines 368-377: the standardize-and-compare phase on the whole table. -/
def reviewPhase (df : List Row3) : List Row3 :=
  df.map reviewRow

/-! ### The batch orchestrator loop (shared shape of both stages) -/

/-- The observable state of a run: the in-memory table, the accumulated
count of resolved rows (`count_processed` / the sum of `matches_in_batch`),
and the number of full-table checkpoint writes performed. -/
structure RunSt (ρ : Type) where
  df : List ρ
  resolved : Nat
  ckpts : Nat
deriving DecidableEq

/-- The loop over the batches.  `step bn b df` performs the guarded
call-and-parse of batch number `bn` with index slice `b`.  After every batch,
failed or not, `if batch_num % 3 == 0` triggers a checkpoint write
(lines 218-222 / 343-351; the write sits outside the `try`/`except`). -/
def runLoop (step : Nat → List Nat → List ρ → List ρ × Nat) :
    Nat → List (List Nat) → RunSt ρ → RunSt ρ
  | _, [], st => st
  | bn, b :: bs, st =>
    let r := step bn b st.df
    runLoop step (bn + 1) bs
      { df := r.1, resolved := st.resolved + r.2,
        ckpts := if bn % 3 = 0 then st.ckpts + 1 else st.ckpts }

/-- The fresh state at run start. -/
def initSt (df : List ρ) : RunSt ρ :=
  { df := df, resolved := 0, ckpts := 0 }

/-- Lines 181-216: the guarded body of one step-2 batch.  A failing
completion call (`except Exception`) leaves the table untouched and
contributes zero resolved rows.  The batch slice `_b` is used only to build
the prompt (lines 169-179), never by the parser, hence ignored here (the
response itself is abstracted by `call`). -/
def step2 (now : String) (call : Nat → Option String) (bn : Nat) (_b : List Nat)
    (df : List Row2) : List Row2 × Nat :=
  match call bn with
  | none => (df, 0)
  | some raw => processResponse2 now df raw

/-- Lines 293-341: the guarded body of one step-3 batch; the slice `b` is the
index list of `batch_df`, consulted positionally by the parser. -/
def step3 (now : String) (call : Nat → Option String) (bn : Nat) (b : List Nat)
    (df : List Row3) : List Row3 × Nat :=
  match call bn with
  | none => (df, 0)
  | some raw => parseResponse3 now df b raw

/-- Lines 133-233, `run_ai_classifier`: load, select the unresolved rows,
return early when nothing is to do (no write at all), otherwise loop over
the batches of 30 and perform the unconditional final save (lines 227-229). -/
def run2 (now : String) (call : Nat → Option String) (df : List Row2) : RunSt Row2 :=
  let idxs := selector2 df
  if idxs.isEmpty then initSt df
  else
    let st := runLoop (step2 now call) 1 (chunksOf 30 idxs) (initSt df)
    { st with ckpts := st.ckpts + 1 }

/-- Lines 236-393, `run_first_pass_and_review`: select the products without a
valid verdict, loop over the batches of 20 (skipped entirely when nothing is
to do), then run the standardize/review phase and the unconditional final
save (lines 381-384), which happens in every case. -/
def run3 (now : String) (call : Nat → Option String) (df : List Row3) : RunSt Row3 :=
  let idxs := selector3 df
  let st :=
    if idxs.isEmpty then initSt df
    else runLoop (step3 now call) 1 (chunksOf 20 idxs) (initSt df)
  { df := reviewPhase st.df, resolved := st.resolved, ckpts := st.ckpts + 1 }

/-- How many of the batch numbers `bn, bn+1, ..., bn+n-1` are multiples of 3:
the intermediate checkpoint count of a run of `n` batches starting at `bn`. -/
def cnt3 : Nat → Nat → Nat
  | _, 0 => 0
  | bn, n + 1 => (if bn % 3 = 0 then 1 else 0) + cnt3 (bn + 1) n

/-- The well-behaved-response condition: every successful completion call
answers with lines whose recoverable id (first digit run, as read by the
step-2 parser) names a row of the batch the call was made for.  Batch `k + 1`
processes the slice at position `k` of the batch list. -/
def respectsBatches (call : Nat → Option String) (bs : List (List Nat)) : Prop :=
  ∀ k, k < bs.length → ∀ raw, call (k + 1) = some raw →
    ∀ line ∈ pySplit '\n' raw, ∀ j, lineId (pyStrip line) = some j → j ∈ bs.getD k []

/-! ### Concrete scenario inputs used by the claim theorems -/

/-- A fixed timestamp string for concrete runs. -/
def nowC : String := "01-01-2026 12:00"

/-- An 8-row blank ingredient table. -/
def df8 : List Row2 := List.replicate 8 blank2

/-- A 6-row ingredient table whose last row is already classified. -/
def df6 : List Row2 :=
  List.replicate 5 blank2 ++
    [{ blank2 with ingredient := "melk", eiweetRol := some "Wel",
                   classificatie := some "Dierlijk",
                   classificatieDatum := some "31-12-2025 09:00" }]

/-- A 31-row blank ingredient table: two step-2 batches ([0..29] and [30]). -/
def df31 : List Row2 := List.replicate 31 blank2

/-- Completion behaviour for the step-2 no-data-loss counterexample: batch 1
succeeds but its response names row 30 (a row of batch 2); batch 2's call
fails. -/
def c1call : Nat → Option String :=
  fun bn => if bn = 1 then some "ID:30 | Wel, Plantaardig" else none

/-- A completion client whose every call fails. -/
def allFail : Nat → Option String := fun _ => none

/-- One well-formed step-3 response line for row `j`. -/
def respLine (j : Nat) : String :=
  "ID:" ++ toString j ++ " | oordeel:Plantaardig | rationale:ok"

/-- A step-3 response of one well-formed line per requested row. -/
def resp (idxs : List Nat) : String :=
  String.intercalate "\n" (idxs.map respLine)

/-- A 45-row blank product table: three step-3 batches of 20, 20 and 5. -/
def df45 : List Row3 := List.replicate 45 blank3

/-- Completion behaviour for the end-to-end scenario: batches 1 and 3
answer one well-formed line per row, batch 2's call fails. -/
def c3call : Nat → Option String :=
  fun bn =>
    if bn = 1 then some (resp (List.range 20))
    else if bn = 3 then some (resp ((List.range 5).map (fun k => 40 + k)))
    else none

/-- The end state of a row the scenario never classifies: only the review
phase touched it. -/
def blankDone : Row3 :=
  { blank3 with gestandaardiseerd := some "Onbekend", reviewNodig := some "ja" }

/-- The end state of a row the scenario classifies from the line `respLine j`. -/
def classifiedDone (j : Nat) : Row3 :=
  { productnaam := "", firstPassAI := some "Plantaardig", aiRationale := some "ok",
    firstPassDatum := some nowC, aiAntwoord := some (respLine j),
    eiweetgroepSupermarkt := none, gestandaardiseerd := some "Onbekend",
    reviewNodig := some "ja" }

/-- The whole expected end table of the end-to-end scenario. -/
def expected45 : List Row3 :=
  (List.range 45).map (fun j =>
    if j < 20 then classifiedDone j else if j < 40 then blankDone else classifiedDone j)

/-- A one-row unresolved ingredient table (a single batch). -/
def df1 : List Row2 := [blank2]

/-- A two-row blank product table. -/
def dfp2 : List Row3 := List.replicate 2 blank3

/-- The step-2 terminal label vocabulary, as fixed by the prompt of
lines 170-179 (`Plantaardig of Dierlijk of Niet relevant`). -/
def geldigeClass2 : List String := ["Plantaardig", "Dierlijk", "Niet relevant"]

/-- A one-row ingredient table whose `Classificatie` holds a non-empty value
outside the valid vocabulary. -/
def dfOnbekend : List Row2 := [{ blank2 with classificatie := some "Onbekend" }]

/-- A one-row product table with a previously stored rationale. -/
def dfOud : List Row3 := [{ blank3 with aiRationale := some "oude uitleg" }]

/-! ### Basic lemmas: tables, masks and batches -/

theorem length_modifyAt (l : List α) (i : Nat) (f : α → α) :
    (modifyAt l i f).length = l.length := by
  induction l generalizing i with
  | nil => rfl
  | cons x xs ih =>
    cases i with
    | zero => rfl
    | succ n => simpa [modifyAt] using ih n

theorem getD_modifyAt_ne (l : List α) (i j : Nat) (f : α → α) (d : α) (h : j ≠ i) :
    (modifyAt l i f).getD j d = l.getD j d := by
  induction l generalizing i j with
  | nil => rfl
  | cons x xs ih =>
    cases i with
    | zero =>
      cases j with
      | zero => exact absurd rfl h
      | succ m => simp [modifyAt]
    | succ n =>
      cases j with
      | zero => rfl
      | succ m =>
        simpa [modifyAt] using ih n m (fun hc => h (by omega))

theorem getD_modifyAt_self (l : List α) (i : Nat) (f : α → α) (d : α) (h : i < l.length) :
    (modifyAt l i f).getD i d = f (l.getD i d) := by
  induction l generalizing i with
  | nil => simp at h
  | cons x xs ih =>
    cases i with
    | zero => rfl
    | succ n =>
      simpa [modifyAt] using ih n (by simpa using h)

theorem getD_indep (l : List α) (j : Nat) (d1 d2 : α) (h : j < l.length) :
    l.getD j d1 = l.getD j d2 := by
  induction l generalizing j with
  | nil => simp at h
  | cons x xs ih =>
    cases j with
    | zero => rfl
    | succ m => simpa using ih m (by simpa using h)

theorem getD_map_of_lt (l : List α) (f : α → β) (j : Nat) (d : β) (d0 : α)
    (h : j < l.length) : (l.map f).getD j d = f (l.getD j d0) := by
  induction l generalizing j with
  | nil => simp at h
  | cons x xs ih =>
    cases j with
    | zero => rfl
    | succ m => simpa using ih m (by simpa using h)

theorem getD_mem_of_lt (l : List α) (j : Nat) (d : α) (h : j < l.length) :
    l.getD j d ∈ l := by
  induction l generalizing j with
  | nil => simp at h
  | cons x xs ih =>
    cases j with
    | zero => simp
    | succ m =>
      simpa using Or.inr (ih m (by simpa using h))

theorem mem_selectIdx (p : ρ → Bool) (df : List ρ) (d : ρ) (j : Nat) :
    j ∈ selectIdx p df d ↔ j < df.length ∧ p (df.getD j d) = true := by
  simp [selectIdx, List.mem_filter, List.mem_range]

theorem selectIdx_pairwise_lt (p : ρ → Bool) (df : List ρ) (d : ρ) :
    List.Pairwise (· < ·) (selectIdx p df d) :=
  (List.pairwise_lt_range df.length).filter _

theorem selectIdx_nodup (p : ρ → Bool) (df : List ρ) (d : ρ) :
    (selectIdx p df d).Nodup :=
  (List.nodup_range df.length).filter _

theorem chunksGo_fuel (n : Nat) :
    ∀ fuel1 fuel2 l, l.length ≤ fuel1 → l.length ≤ fuel2 →
      chunksGo n fuel1 l = chunksGo n fuel2 l := by
  intro fuel1
  induction fuel1 with
  | zero =>
    intro fuel2 l h1 _
    have : l = [] := List.length_eq_zero.mp (Nat.le_zero.mp h1)
    subst this
    cases fuel2 <;> rfl
  | succ f ih =>
    intro fuel2 l h1 h2
    cases l with
    | nil => cases fuel2 <;> rfl
    | cons x xs =>
      simp only [List.length_cons] at h1 h2
      cases fuel2 with
      | zero => omega
      | succ f2 =>
        simp only [chunksGo]
        congr 1
        have hd : (xs.drop (n - 1)).length ≤ xs.length := by
          simp [List.length_drop]
        exact ih f2 (xs.drop (n - 1)) (by omega) (by omega)

theorem chunksOf_cons (n : Nat) (x : Nat) (xs : List Nat) :
    chunksOf n (x :: xs) = (x :: xs.take (n - 1)) :: chunksOf n (xs.drop (n - 1)) := by
  simp only [chunksOf, List.length_cons, chunksGo]
  congr 1
  have hd : (xs.drop (n - 1)).length ≤ xs.length := by
    simp [List.length_drop]
  exact chunksGo_fuel n xs.length (xs.drop (n - 1)).length _ (by omega) (Nat.le_refl _)

theorem chunksGo_flatten (n : Nat) :
    ∀ fuel l, l.length ≤ fuel → (chunksGo n fuel l).flatten = l := by
  intro fuel
  induction fuel with
  | zero =>
    intro l h
    have : l = [] := List.length_eq_zero.mp (Nat.le_zero.mp h)
    subst this; rfl
  | succ f ih =>
    intro l h
    cases l with
    | nil => rfl
    | cons x xs =>
      simp only [List.length_cons] at h
      simp only [chunksGo, List.flatten_cons]
      have hd : (xs.drop (n - 1)).length ≤ xs.length := by
        simp [List.length_drop]
      rw [ih (xs.drop (n - 1)) (by omega)]
      simp [List.take_append_drop]

theorem chunksOf_flatten (n : Nat) (l : List Nat) : (chunksOf n l).flatten = l :=
  chunksGo_flatten n l.length l (Nat.le_refl _)

theorem chunksOf_nil_iff (n : Nat) (l : List Nat) : chunksOf n l = [] ↔ l = [] := by
  cases l with
  | nil => simp [chunksOf, chunksGo]
  | cons x xs =>
    rw [chunksOf_cons]
    simp

/-! ### Lemmas on the orchestrator loop -/

theorem runLoop_ckpts (step : Nat → List Nat → List ρ → List ρ × Nat) :
    ∀ (bs : List (List Nat)) (bn : Nat) (st : RunSt ρ),
      (runLoop step bn bs st).ckpts = st.ckpts + cnt3 bn bs.length := by
  intro bs
  induction bs with
  | nil => intro bn st; simp [runLoop, cnt3]
  | cons b bs ih =>
    intro bn st
    simp only [runLoop, List.length_cons, cnt3]
    rw [ih]
    by_cases h : bn % 3 = 0 <;> simp [h] <;> try omega

theorem cnt3_div : ∀ (n bn : Nat), 1 ≤ bn →
    cnt3 bn n = (bn - 1 + n) / 3 - (bn - 1) / 3 := by
  intro n
  induction n with
  | zero => intro bn _; simp [cnt3]
  | succ m ih =>
    intro bn hbn
    have h2 := ih (bn + 1) (by omega)
    simp only [cnt3]
    rw [h2]
    simp only [Nat.add_sub_cancel]
    split <;> omega

theorem cnt3_one (n : Nat) : cnt3 1 n = n / 3 := by
  rw [cnt3_div n 1 (Nat.le_refl 1)]
  simp

theorem runLoop_append (step : Nat → List Nat → List ρ → List ρ × Nat) :
    ∀ (xs ys : List (List Nat)) (bn : Nat) (st : RunSt ρ),
      runLoop step bn (xs ++ ys) st =
        runLoop step (bn + xs.length) ys (runLoop step bn xs st) := by
  intro xs
  induction xs with
  | nil => intro ys bn st; simp [runLoop]
  | cons x xs ih =>
    intro ys bn st
    rw [List.cons_append]
    simp only [runLoop, List.length_cons]
    rw [ih]
    congr 1
    omega

theorem runLoop_length (step : Nat → List Nat → List ρ → List ρ × Nat)
    (hstep : ∀ bn b df, ((step bn b df).1).length = df.length) :
    ∀ (bs : List (List Nat)) (bn : Nat) (st : RunSt ρ),
      (runLoop step bn bs st).df.length = st.df.length := by
  intro bs
  induction bs with
  | nil => intro bn st; rfl
  | cons b bs ih =>
    intro bn st
    simp only [runLoop]
    rw [ih]
    exact hstep bn b st.df

theorem runLoop_frame (step : Nat → List Nat → List ρ → List ρ × Nat) (j : Nat) (d : ρ) :
    ∀ (bs : List (List Nat)) (bn : Nat) (st : RunSt ρ),
      (∀ k, k < bs.length → ∀ dfx : List ρ,
        ((step (bn + k) (bs.getD k []) dfx).1).getD j d = dfx.getD j d) →
      (runLoop step bn bs st).df.getD j d = st.df.getD j d := by
  intro bs
  induction bs with
  | nil => intro bn st _; rfl
  | cons b bs ih =>
    intro bn st h
    simp only [runLoop]
    rw [ih (bn + 1) _ ?_]
    · simpa using h 0 (by simp) st.df
    · intro k hk dfx
      have := h (k + 1) (by simpa using Nat.succ_lt_succ hk) dfx
      simpa [Nat.add_comm, Nat.add_assoc, Nat.add_left_comm] using this

/-! ### Lemmas on the step-2 parser -/

theorem processLine2_eq (now : String) (df : List Row2) (rawLine : String) :
    processLine2 now df rawLine =
      match lineId (pyStrip rawLine) with
      | none => (df, 0)
      | some idx =>
        if idx < df.length ∧ rolOf (pyLower (pyStrip rawLine)) ≠ "" ∧
            oorsprongOf (pyLower (pyStrip rawLine)) ≠ "" then
          (modifyAt df idx
            (commitRow2 now (rolOf (pyLower (pyStrip rawLine)))
              (oorsprongOf (pyLower (pyStrip rawLine)))), 1)
        else (df, 0) := by
  simp only [processLine2]
  by_cases hb : pyStrip rawLine = ""
  · rw [hb]
    simp [lineId, firstNumToken]
  · simp only [beq_iff_eq, hb, if_false]
    cases hid : lineId (pyStrip rawLine) with
    | none => rfl
    | some idx =>
      by_cases h1 : idx < df.length <;>
        by_cases h2 : rolOf (pyLower (pyStrip rawLine)) = "" <;>
          by_cases h3 : oorsprongOf (pyLower (pyStrip rawLine)) = "" <;>
            simp [h1, h2, h3]

theorem processLine2_length (now : String) (df : List Row2) (line : String) :
    (processLine2 now df line).1.length = df.length := by
  rw [processLine2_eq]
  split
  · rfl
  · split
    · exact length_modifyAt df _ _
    · rfl

theorem processLine2_getD_ne (now : String) (df : List Row2) (rawLine : String) (j : Nat)
    (d : Row2) (h : lineId (pyStrip rawLine) ≠ some j) :
    (processLine2 now df rawLine).1.getD j d = df.getD j d := by
  rw [processLine2_eq]
  split
  · rfl
  · rename_i idx hid
    have hne : j ≠ idx := fun he => h (he ▸ hid)
    split
    · exact getD_modifyAt_ne df idx j _ d hne
    · rfl

theorem processLine2_congr (now : String) (dfa dfb : List Row2) (rawLine : String) (j : Nat)
    (d : Row2) (hlen : dfa.length = dfb.length) (hj : dfa.getD j d = dfb.getD j d) :
    (processLine2 now dfa rawLine).1.getD j d = (processLine2 now dfb rawLine).1.getD j d := by
  rw [processLine2_eq, processLine2_eq]
  split
  · exact hj
  · rename_i idx hid
    rw [hlen]
    split
    · rename_i hcond
      by_cases hji : j = idx
      · subst hji
        have hja : j < dfa.length := by omega
        have hjb : j < dfb.length := by omega
        rw [getD_modifyAt_self dfa j _ d hja, getD_modifyAt_self dfb j _ d hjb, hj]
      · rw [getD_modifyAt_ne dfa idx j _ d hji, getD_modifyAt_ne dfb idx j _ d hji, hj]
    · exact hj

theorem foldLine2_length (now : String) (acc : List Row2 × Nat) (line : String) :
    ((foldLine2 now acc line).1).length = acc.1.length :=
  processLine2_length now acc.1 line

theorem foldLines2_length (now : String) :
    ∀ (lines : List String) (acc : List Row2 × Nat),
      ((lines.foldl (foldLine2 now) acc).1).length = acc.1.length := by
  intro lines
  induction lines with
  | nil => intro acc; rfl
  | cons l ls ih =>
    intro acc
    rw [List.foldl_cons, ih, foldLine2_length]

theorem processResponse2_length (now : String) (df : List Row2) (raw : String) :
    ((processResponse2 now df raw).1).length = df.length :=
  foldLines2_length now (pySplit '\n' raw) (df, 0)

theorem foldLines2_frame (now : String) (j : Nat) (d : Row2) :
    ∀ (lines : List String) (acc : List Row2 × Nat),
      (∀ l ∈ lines, lineId (pyStrip l) ≠ some j) →
      ((lines.foldl (foldLine2 now) acc).1).getD j d = acc.1.getD j d := by
  intro lines
  induction lines with
  | nil => intro acc _; rfl
  | cons l ls ih =>
    intro acc h
    rw [List.foldl_cons, ih _ (fun x hx => h x (List.mem_cons_of_mem l hx))]
    exact processLine2_getD_ne now acc.1 l j d (h l (List.mem_cons_self l ls))

theorem processResponse2_frame (now : String) (df : List Row2) (raw : String) (j : Nat)
    (d : Row2) (h : ∀ l ∈ pySplit '\n' raw, lineId (pyStrip l) ≠ some j) :
    ((processResponse2 now df raw).1).getD j d = df.getD j d :=
  foldLines2_frame now j d (pySplit '\n' raw) (df, 0) h

theorem foldLines2_congr (now : String) (j : Nat) (d : Row2) :
    ∀ (lines : List String) (acca accb : List Row2 × Nat),
      acca.1.length = accb.1.length → acca.1.getD j d = accb.1.getD j d →
      ((lines.foldl (foldLine2 now) acca).1).getD j d =
        ((lines.foldl (foldLine2 now) accb).1).getD j d := by
  intro lines
  induction lines with
  | nil => intro acca accb _ hj; exact hj
  | cons l ls ih =>
    intro acca accb hlen hj
    rw [List.foldl_cons, List.foldl_cons]
    refine ih _ _ ?_ ?_
    · rw [foldLine2_length, foldLine2_length, hlen]
    · exact processLine2_congr now acca.1 accb.1 l j d hlen hj

theorem processResponse2_congr (now : String) (dfa dfb : List Row2) (raw : String) (j : Nat)
    (d : Row2) (hlen : dfa.length = dfb.length) (hj : dfa.getD j d = dfb.getD j d) :
    ((processResponse2 now dfa raw).1).getD j d = ((processResponse2 now dfb raw).1).getD j d :=
  foldLines2_congr now j d (pySplit '\n' raw) (dfa, 0) (dfb, 0) hlen hj

/-! ### Lemmas on the step-3 parser -/

theorem commitLine3_length (now : String) (acc : List Row3 × Nat) (p : String × Nat) :
    ((commitLine3 now acc p).1).length = acc.1.length := by
  simp only [commitLine3]
  split
  · exact length_modifyAt acc.1 p.2 _
  · rw [length_modifyAt, length_modifyAt]

theorem commitLine3_getD_ne (now : String) (acc : List Row3 × Nat) (p : String × Nat)
    (j : Nat) (d : Row3) (h : j ≠ p.2) :
    ((commitLine3 now acc p).1).getD j d = acc.1.getD j d := by
  simp only [commitLine3]
  split
  · exact getD_modifyAt_ne acc.1 p.2 j _ d h
  · rw [getD_modifyAt_ne _ p.2 j _ d h, getD_modifyAt_ne acc.1 p.2 j _ d h]

theorem commitLine3_getD_self (now : String) (acc : List Row3 × Nat) (p : String × Nat)
    (d : Row3) (h : p.2 < acc.1.length) :
    ((commitLine3 now acc p).1).getD p.2 d = rowCommit3 now p.1 (acc.1.getD p.2 d) := by
  simp only [commitLine3]
  split
  · rename_i ho
    rw [getD_modifyAt_self acc.1 p.2 _ d h]
    simp [rowCommit3, ho]
  · rename_i o ho
    rw [getD_modifyAt_self _ p.2 _ d (by rw [length_modifyAt]; exact h),
      getD_modifyAt_self acc.1 p.2 _ d h]
    simp [rowCommit3, ho]

theorem snd_mem_of_mem_zip : ∀ (l1 : List α) (l2 : List β) (p : α × β),
    p ∈ l1.zip l2 → p.2 ∈ l2 := by
  intro l1
  induction l1 with
  | nil => intro l2 p h; simp [List.zip] at h
  | cons x xs ih =>
    intro l2 p h
    cases l2 with
    | nil => simp [List.zip] at h
    | cons y ys =>
      rcases List.mem_cons.mp h with h1 | h2
      · subst h1; simp
      · exact List.mem_cons_of_mem y (ih ys p h2)

theorem foldCommit3_length (now : String) :
    ∀ (ps : List (String × Nat)) (acc : List Row3 × Nat),
      ((ps.foldl (commitLine3 now) acc).1).length = acc.1.length := by
  intro ps
  induction ps with
  | nil => intro acc; rfl
  | cons p ps ih =>
    intro acc
    rw [List.foldl_cons, ih, commitLine3_length]

theorem parseResponse3_length (now : String) (df : List Row3) (bIdx : List Nat)
    (raw : String) : ((parseResponse3 now df bIdx raw).1).length = df.length :=
  foldCommit3_length now ((linesOf3 raw).zip bIdx) (df, 0)

theorem foldCommit3_frame (now : String) (j : Nat) (d : Row3) :
    ∀ (ps : List (String × Nat)) (acc : List Row3 × Nat),
      (∀ p ∈ ps, p.2 ≠ j) →
      ((ps.foldl (commitLine3 now) acc).1).getD j d = acc.1.getD j d := by
  intro ps
  induction ps with
  | nil => intro acc _; rfl
  | cons p ps ih =>
    intro acc h
    rw [List.foldl_cons, ih _ (fun x hx => h x (List.mem_cons_of_mem p hx))]
    exact commitLine3_getD_ne now acc p j d (fun he => h p (List.mem_cons_self p ps) he.symm)

theorem parseResponse3_frame (now : String) (df : List Row3) (bIdx : List Nat) (raw : String)
    (j : Nat) (d : Row3) (h : j ∉ bIdx) :
    ((parseResponse3 now df bIdx raw).1).getD j d = df.getD j d := by
  refine foldCommit3_frame now j d _ (df, 0) ?_
  intro p hp he
  exact h (he ▸ snd_mem_of_mem_zip (linesOf3 raw) bIdx p hp)

theorem foldCommit3_pos (now : String) (d : Row3) :
    ∀ (i : Nat) (lines : List String) (bIdx : List Nat) (acc : List Row3 × Nat),
      bIdx.Nodup → i < lines.length → i < bIdx.length → bIdx.getD i 0 < acc.1.length →
      (((lines.zip bIdx).foldl (commitLine3 now) acc).1).getD (bIdx.getD i 0) d =
        rowCommit3 now (lines.getD i "") (acc.1.getD (bIdx.getD i 0) d) := by
  intro i
  induction i with
  | zero =>
    intro lines bIdx acc hnd hl hb hlt
    cases lines with
    | nil => simp at hl
    | cons l ls =>
      cases bIdx with
      | nil => simp at hb
      | cons t ts =>
        simp only [List.zip_cons_cons, List.foldl_cons, List.getD_cons_zero] at hlt ⊢
        have hts : t ∉ ts := (List.nodup_cons.mp hnd).1
        rw [foldCommit3_frame now t d _ _ ?_]
        · exact commitLine3_getD_self now acc (l, t) d hlt
        · intro p hp he
          exact hts (he ▸ snd_mem_of_mem_zip ls ts p hp)
  | succ i ih =>
    intro lines bIdx acc hnd hl hb hlt
    cases lines with
    | nil => simp at hl
    | cons l ls =>
      cases bIdx with
      | nil => simp at hb
      | cons t ts =>
        simp only [List.zip_cons_cons, List.foldl_cons, List.getD_cons_succ] at hlt ⊢
        have hts : t ∉ ts := (List.nodup_cons.mp hnd).1
        have htarget : ts.getD i 0 ∈ ts :=
          getD_mem_of_lt ts i 0 (by simpa using hb)
        have hne : ts.getD i 0 ≠ t := fun he => hts (he ▸ htarget)
        have hstep : ((commitLine3 now acc (l, t)).1).getD (ts.getD i 0) d =
            acc.1.getD (ts.getD i 0) d :=
          commitLine3_getD_ne now acc (l, t) _ d hne
        rw [ih ls ts (commitLine3 now acc (l, t)) (List.nodup_cons.mp hnd).2
          (by simpa using hl) (by simpa using hb)
          (by rw [commitLine3_length]; exact hlt), hstep]

theorem parseResponse3_pos (now : String) (df : List Row3) (bIdx : List Nat) (raw : String)
    (i : Nat) (d : Row3) (hnd : bIdx.Nodup) (hl : i < (linesOf3 raw).length)
    (hb : i < bIdx.length) (hlt : bIdx.getD i 0 < df.length) :
    ((parseResponse3 now df bIdx raw).1).getD (bIdx.getD i 0) d =
      rowCommit3 now ((linesOf3 raw).getD i "") (df.getD (bIdx.getD i 0) d) :=
  foldCommit3_pos now d i (linesOf3 raw) bIdx (df, 0) hnd hl hb hlt

/-! ### Lemmas on the review phase and the two runs -/

theorem reviewPhase_length (df : List Row3) : (reviewPhase df).length = df.length :=
  List.length_map df reviewRow

theorem reviewPhase_getD (df : List Row3) (j : Nat) (d : Row3) (h : j < df.length) :
    (reviewPhase df).getD j d = reviewRow (df.getD j d) :=
  getD_map_of_lt df reviewRow j d d h

theorem reviewRow_labels (r : Row3) :
    (reviewRow r).firstPassAI = r.firstPassAI ∧ (reviewRow r).aiRationale = r.aiRationale ∧
      (reviewRow r).firstPassDatum = r.firstPassDatum ∧ (reviewRow r).aiAntwoord = r.aiAntwoord :=
  ⟨rfl, rfl, rfl, rfl⟩

theorem unresolved3_reviewRow (r : Row3) : unresolved3 (reviewRow r) = unresolved3 r := rfl

theorem step2_length (now : String) (call : Nat → Option String) (bn : Nat) (b : List Nat)
    (df : List Row2) : ((step2 now call bn b df).1).length = df.length := by
  simp only [step2]
  split
  · rfl
  · exact processResponse2_length now df _

theorem step3_length (now : String) (call : Nat → Option String) (bn : Nat) (b : List Nat)
    (df : List Row3) : ((step3 now call bn b df).1).length = df.length := by
  simp only [step3]
  split
  · rfl
  · exact parseResponse3_length now df b _

theorem isEmpty_false_of_ne_nil (l : List α) (h : l ≠ []) : l.isEmpty = false := by
  cases l with
  | nil => exact absurd rfl h
  | cons x xs => rfl

theorem chunks_split_nodup (n : Nat) (l : List Nat) (bs1 bs2 : List (List Nat)) (B : List Nat)
    (hnd : l.Nodup) (hsplit : chunksOf n l = bs1 ++ B :: bs2) (j : Nat) (hj : j ∈ B) :
    j ∈ l ∧ (∀ b ∈ bs1, j ∉ b) ∧ (∀ b ∈ bs2, j ∉ b) := by
  have hfl : bs1.flatten ++ (B ++ bs2.flatten) = l := by
    have := chunksOf_flatten n l
    rw [hsplit] at this
    simpa [List.flatten_append] using this
  have hnd2 : (bs1.flatten ++ (B ++ bs2.flatten)).Nodup := by rw [hfl]; exact hnd
  rcases List.nodup_append.mp hnd2 with ⟨_, hmidnd, hdisj1⟩
  rcases List.nodup_append.mp hmidnd with ⟨_, _, hdisj2⟩
  refine ⟨?_, ?_, ?_⟩
  · rw [← hfl]
    exact List.mem_append_right _ (List.mem_append_left _ hj)
  · intro b hb hjb
    exact hdisj1 (List.mem_flatten.mpr ⟨b, hb, hjb⟩) (List.mem_append_left _ hj)
  · intro b hb hjb
    exact hdisj2 hj (List.mem_flatten.mpr ⟨b, hb, hjb⟩)

theorem chunks_mem_selector (n : Nat) (l : List Nat) (bs1 bs2 : List (List Nat)) (B : List Nat)
    (hsplit : chunksOf n l = bs1 ++ B :: bs2) (j : Nat) (hj : j ∈ B) : j ∈ l := by
  have := chunksOf_flatten n l
  rw [hsplit] at this
  rw [← this]
  exact List.mem_flatten.mpr ⟨B, by simp, hj⟩

theorem chunks_ne_nil_source (n : Nat) (l : List Nat) (bs1 bs2 : List (List Nat)) (B : List Nat)
    (hsplit : chunksOf n l = bs1 ++ B :: bs2) : l ≠ [] := by
  intro h0
  rw [h0] at hsplit
  have : ([] : List (List Nat)) = bs1 ++ B :: bs2 := hsplit
  exact absurd this.symm (by simp)

theorem run2_df_length (now : String) (call : Nat → Option String) (df : List Row2) :
    (run2 now call df).df.length = df.length := by
  simp only [run2]
  split
  · rfl
  · exact runLoop_length _ (step2_length now call) _ _ _

theorem run3_df_length (now : String) (call : Nat → Option String) (df : List Row3) :
    (run3 now call df).df.length = df.length := by
  simp only [run3]
  split
  · simp [reviewPhase_length, initSt]
  · rw [reviewPhase_length]
    exact runLoop_length _ (step3_length now call) _ _ _

theorem run2_batch_outcome (now : String) (call : Nat → Option String) (df : List Row2)
    (bs1 bs2 : List (List Nat)) (B : List Nat) (j : Nat) (d : Row2)
    (hsplit : chunksOf 30 (selector2 df) = bs1 ++ B :: bs2)
    (hother : ∀ k, k < bs1.length + 1 + bs2.length → k ≠ bs1.length →
      ∀ raw, call (k + 1) = some raw →
        ∀ l ∈ pySplit '\n' raw, lineId (pyStrip l) ≠ some j) :
    (run2 now call df).df.getD j d =
      match call (bs1.length + 1) with
      | none => df.getD j d
      | some raw => ((processResponse2 now df raw).1).getD j d := by
  have hne : selector2 df ≠ [] := chunks_ne_nil_source 30 _ bs1 bs2 B hsplit
  have hie := isEmpty_false_of_ne_nil _ hne
  simp only [run2, hie, Bool.false_eq_true, if_false]
  rw [hsplit, runLoop_append]
  have hmidframe :
      (runLoop (step2 now call) 1 bs1 (initSt df)).df.getD j d = df.getD j d := by
    refine runLoop_frame (step2 now call) j d bs1 1 (initSt df) ?_
    intro k hk dfx
    simp only [step2]
    split
    · rfl
    · rename_i raw hc
      have hc2 : call (k + 1) = some raw := by rw [Nat.add_comm 1 k] at hc; exact hc
      exact processResponse2_frame now dfx raw j d
        (hother k (by omega) (by omega) raw hc2)
  have hmidlen :
      (runLoop (step2 now call) 1 bs1 (initSt df)).df.length = df.length :=
    runLoop_length _ (step2_length now call) bs1 1 (initSt df)
  simp only [runLoop]
  rw [runLoop_frame (step2 now call) j d bs2 _ _ ?_]
  · simp only [step2]
    have h1b : 1 + bs1.length = bs1.length + 1 := Nat.add_comm 1 _
    rw [h1b]
    split
    · exact hmidframe
    · exact processResponse2_congr now _ df _ j d hmidlen hmidframe
  · intro k hk dfx
    simp only [step2]
    split
    · rfl
    · rename_i raw hc
      have hc2 : call ((bs1.length + 1 + k) + 1) = some raw := by
        have harith : 1 + bs1.length + 1 + k = bs1.length + 1 + k + 1 := by omega
        rw [harith] at hc
        exact hc
      exact processResponse2_frame now dfx raw j d
        (hother (bs1.length + 1 + k) (by omega) (by omega) raw hc2)

theorem run3_failed_batch (now : String) (call : Nat → Option String) (df : List Row3)
    (bs1 bs2 : List (List Nat)) (B : List Nat) (j : Nat) (d : Row3)
    (hsplit : chunksOf 20 (selector3 df) = bs1 ++ B :: bs2)
    (hj : j ∈ B) (hfail : call (bs1.length + 1) = none) :
    (run3 now call df).df.getD j d = reviewRow (df.getD j d) := by
  have hne : selector3 df ≠ [] := chunks_ne_nil_source 20 _ bs1 bs2 B hsplit
  have hie := isEmpty_false_of_ne_nil _ hne
  have hjl : j ∈ selector3 df := chunks_mem_selector 20 _ bs1 bs2 B hsplit j hj
  have hjlt : j < df.length := ((mem_selectIdx _ df blank3 j).mp hjl).1
  rcases chunks_split_nodup 20 _ bs1 bs2 B (selectIdx_nodup _ df blank3) hsplit j hj
    with ⟨_, hnot1, hnot2⟩
  simp only [run3, hie, Bool.false_eq_true, if_false]
  have hloop :
      (runLoop (step3 now call) 1 (bs1 ++ B :: bs2) (initSt df)).df.getD j d = df.getD j d := by
    refine runLoop_frame (step3 now call) j d _ 1 (initSt df) ?_
    intro k hk dfx
    simp only [step3]
    split
    · rfl
    · rename_i raw hc
      have hc2 : call (k + 1) = some raw := by rw [Nat.add_comm 1 k] at hc; exact hc
      refine parseResponse3_frame now dfx _ raw j d ?_
      rcases Nat.lt_trichotomy k bs1.length with hlt | heq | hgt
      · rw [List.getD_append _ _ [] k hlt]
        exact hnot1 _ (getD_mem_of_lt bs1 k [] hlt)
      · subst heq
        rw [hfail] at hc2
        exact absurd hc2 (by simp)
      · rw [List.getD_append_right _ _ [] k (by omega)]
        have hk2 : k - bs1.length = (k - bs1.length - 1) + 1 := by omega
        rw [hk2, List.getD_cons_succ]
        have hblen : k - bs1.length - 1 < bs2.length := by
          simp only [List.length_append, List.length_cons] at hk
          omega
        exact hnot2 _ (getD_mem_of_lt bs2 _ [] hblen)
  have hlen :
      (runLoop (step3 now call) 1 (bs1 ++ B :: bs2) (initSt df)).df.length = df.length :=
    runLoop_length _ (step3_length now call) _ 1 (initSt df)
  rw [hsplit]
  rw [reviewPhase_getD _ j d (by rw [hlen]; exact hjlt), hloop]

/-! ### Commit-shape helpers -/

theorem modifyAt_oob (l : List α) (i : Nat) (f : α → α) (h : l.length ≤ i) :
    modifyAt l i f = l := by
  induction l generalizing i with
  | nil => rfl
  | cons x xs ih =>
    cases i with
    | zero => simp at h
    | succ n =>
      simp only [modifyAt]
      rw [ih n (by simpa using h)]

theorem processLine2_noid (now : String) (df : List Row2) (rawLine : String)
    (hid : lineId (pyStrip rawLine) = none) : processLine2 now df rawLine = (df, 0) := by
  rw [processLine2_eq]
  split
  · rfl
  · rename_i idx hid2
    rw [hid2] at hid
    cases hid

theorem processLine2_commit (now : String) (df : List Row2) (rawLine : String) (idx : Nat)
    (hid : lineId (pyStrip rawLine) = some idx) (hlt : idx < df.length)
    (hrol : rolOf (pyLower (pyStrip rawLine)) ≠ "")
    (hoor : oorsprongOf (pyLower (pyStrip rawLine)) ≠ "") :
    processLine2 now df rawLine =
      (modifyAt df idx
        (commitRow2 now (rolOf (pyLower (pyStrip rawLine)))
          (oorsprongOf (pyLower (pyStrip rawLine)))), 1) := by
  rw [processLine2_eq]
  split
  · rename_i h0
    rw [h0] at hid
    cases hid
  · rename_i idx2 hid2
    have he : idx2 = idx := by
      have := hid2.symm.trans hid
      injection this
    subst he
    rw [if_pos ⟨hlt, hrol, hoor⟩]

theorem processLine2_skip (now : String) (df : List Row2) (rawLine : String) (idx : Nat)
    (hid : lineId (pyStrip rawLine) = some idx)
    (h : ¬(idx < df.length ∧ rolOf (pyLower (pyStrip rawLine)) ≠ "" ∧
        oorsprongOf (pyLower (pyStrip rawLine)) ≠ "")) :
    processLine2 now df rawLine = (df, 0) := by
  rw [processLine2_eq]
  split
  · rfl
  · rename_i idx2 hid2
    have he : idx2 = idx := by
      have := hid2.symm.trans hid
      injection this
    subst he
    rw [if_neg h]

theorem oordeelHere_ne_empty (cs : List Char) (s : String) (h : oordeelHere cs = some s) :
    s ≠ "" := by
  simp only [oordeelHere] at h
  split at h
  · cases h
  · split at h
    · cases h
    · split at h
      · split at h
        · cases h
        · rename_i hletters
          intro hs
          have : s.data = [] := by rw [hs]
          injection h with h2
          rw [← h2] at this
          simp only [String.mk] at this
          rw [this] at hletters
          exact hletters rfl
      · cases h

theorem searchOordeel_ne_empty :
    ∀ (cs : List Char) (s : String), searchOordeel cs = some s → s ≠ "" := by
  intro cs
  induction cs with
  | nil => intro s h; cases h
  | cons c cs ih =>
    intro s h
    simp only [searchOordeel] at h
    split at h
    · rename_i r hr
      injection h with h2
      exact h2 ▸ oordeelHere_ne_empty _ r hr
    · exact ih s h

theorem pyCapitalize_ne_empty (w : String) (h : w ≠ "") : pyCapitalize w ≠ "" := by
  simp only [pyCapitalize]
  split
  · rename_i hdata
    intro _
    apply h
    have : w.data = [] := hdata
    cases w
    simp_all
  · rename_i c cs _
    intro hc
    have : (String.mk (c.toUpper :: cs.map Char.toLower)).data = [] := by rw [hc]
    simp at this

theorem oordeelOf_ne_empty (line : String) (o : String) (h : oordeelOf line = some o) :
    o ≠ "" := by
  simp only [oordeelOf, Option.map_eq_some'] at h
  rcases h with ⟨w, hw, ho⟩
  exact ho ▸ pyCapitalize_ne_empty w (searchOordeel_ne_empty line.data w hw)

/-! ### The claims -/

/-- Claim C7 (confirmed).  The step-2 parser is total on arbitrary raw text:
on any response it returns a well-defined table of unchanged length (the
embedding of the parser is a total function — the source loop can raise no
exception: `int()` is applied only to digit runs and every table write is
guarded by `idx in df.index`).  On the line
`"id:7 | role:Wel, type:Plantaardig"` over an 8-row table it yields exactly
the entry mapping row 7 to role `Wel` and origin `Plantaardig` (all other
rows untouched, one line matched), and on `"random text no id"` it yields no
entry at all. -/
theorem claim7_parser_total_and_precise :
    (∀ now df raw, ((processResponse2 now df raw).1).length = df.length) ∧
    processLine2 nowC df8 "id:7 | role:Wel, type:Plantaardig" =
      (List.replicate 7 blank2 ++
        [{ blank2 with eiweetRol := some "Wel", classificatie := some "Plantaardig",
                       classificatieDatum := some nowC }], 1) ∧
    processLine2 nowC df8 "random text no id" = (df8, 0) := by
  refine ⟨fun now df raw => processResponse2_length now df raw, by decide, by decide⟩

/-- Claim C8 (confirmed).  On any line whose lower-cased, stripped text
contains both the substring `plantaardig` and the substring `dierlijk`, the
step-2 origin extraction deterministically yields `Plantaardig`: the source
checks the keywords in the fixed order plantaardig, dierlijk, relevant
(lines 201-204), and `oorsprongOf` is a pure function, so the same line gives
the same result on every run. -/
theorem claim8_keyword_priority (line : String)
    (h1 : pyIn "plantaardig" (pyLower (pyStrip line)) = true)
    (h2 : pyIn "dierlijk" (pyLower (pyStrip line)) = true) :
    oorsprongOf (pyLower (pyStrip line)) = "Plantaardig" := by
  simp [oorsprongOf, h1]

/-- Witness for C8 at the concrete line `"ID:2 | plantaardig en dierlijk"`. -/
theorem claim8_witness :
    pyIn "plantaardig" (pyLower (pyStrip "ID:2 | plantaardig en dierlijk")) = true ∧
    pyIn "dierlijk" (pyLower (pyStrip "ID:2 | plantaardig en dierlijk")) = true ∧
    oorsprongOf (pyLower (pyStrip "ID:2 | plantaardig en dierlijk")) = "Plantaardig" :=
  ⟨by decide, by decide, claim8_keyword_priority "ID:2 | plantaardig en dierlijk"
    (by decide) (by decide)⟩

/-- Claim C10 (confirmed).  In the step-2 parser a line whose first digit run
names ANY valid index of the full in-memory table — the batch never enters
the check (`processLine2`/`processResponse2` take no batch argument, exactly
as the source tests `idx in df.index` at line 207) — and which carries a role
keyword and an origin keyword, overwrites that row's `Eiweet rol`,
`Classificatie` and `Classificatie datum` cells and counts as processed. -/
theorem claim10_commit_ignores_batch (now : String) (df : List Row2) (line : String)
    (idx : Nat) (d : Row2)
    (hid : lineId (pyStrip line) = some idx) (hlt : idx < df.length)
    (hrol : rolOf (pyLower (pyStrip line)) ≠ "")
    (hoor : oorsprongOf (pyLower (pyStrip line)) ≠ "") :
    ((processLine2 now df line).1).getD idx d =
      commitRow2 now (rolOf (pyLower (pyStrip line))) (oorsprongOf (pyLower (pyStrip line)))
        (df.getD idx d) ∧
    (processLine2 now df line).2 = 1 := by
  rw [processLine2_commit now df line idx hid hlt hrol hoor]
  exact ⟨getD_modifyAt_self df idx _ d hlt, rfl⟩

/-- Witness for C10: row 5 of `df6` is already classified (`Dierlijk`), hence
not in the unresolved set and outside every batch, yet the line
`"ID:5 | Wel, Plantaardig"` overwrites it to `Plantaardig`. -/
theorem claim10_witness :
    (df6.getD 5 blank2).classificatie = some "Dierlijk" ∧
    selector2 df6 = [0, 1, 2, 3, 4] ∧
    ((processLine2 nowC df6 "ID:5 | Wel, Plantaardig").1.getD 5 blank2).classificatie =
      some "Plantaardig" := by
  refine ⟨by decide, by decide, ?_⟩
  rw [(claim10_commit_ignores_batch nowC df6 "ID:5 | Wel, Plantaardig" 5 blank2
    (by decide) (by decide) (by decide) (by decide)).1]
  decide

/-- Claim C5 (confirmed).  A line's labels are committed only when the
recovered id is a currently-valid row index and every required field
resolves to a non-empty match.  Step 2 (both `Eiweet rol` and
`Classificatie` required): when the guard fails the parser returns the table
unchanged with a zero count, and when it holds it commits exactly one entry.
Step 3 (the verdict required): when the verdict regex fails the line is
dropped — no row's `First pass AI`, `AI rationale` or `First pass AI datum`
cell changes and the matched count does not move (only the raw-answer debug
column is recorded) — and a matched verdict is always a non-empty string, so
no label is ever overwritten by a null/empty verdict. -/
theorem claim5_required_fields_guard :
    (∀ now (df : List Row2) rawLine idx, lineId (pyStrip rawLine) = some idx →
      ¬(idx < df.length ∧ rolOf (pyLower (pyStrip rawLine)) ≠ "" ∧
          oorsprongOf (pyLower (pyStrip rawLine)) ≠ "") →
      processLine2 now df rawLine = (df, 0)) ∧
    (∀ now (df : List Row2) rawLine idx, lineId (pyStrip rawLine) = some idx →
      idx < df.length → rolOf (pyLower (pyStrip rawLine)) ≠ "" →
      oorsprongOf (pyLower (pyStrip rawLine)) ≠ "" →
      processLine2 now df rawLine =
        (modifyAt df idx
          (commitRow2 now (rolOf (pyLower (pyStrip rawLine)))
            (oorsprongOf (pyLower (pyStrip rawLine)))), 1)) ∧
    (∀ now (acc : List Row3 × Nat) line idx, oordeelOf line = none →
      (commitLine3 now acc (line, idx)).2 = acc.2 ∧
      ∀ j d, (((commitLine3 now acc (line, idx)).1).getD j d).firstPassAI =
          (acc.1.getD j d).firstPassAI ∧
        (((commitLine3 now acc (line, idx)).1).getD j d).aiRationale =
          (acc.1.getD j d).aiRationale ∧
        (((commitLine3 now acc (line, idx)).1).getD j d).firstPassDatum =
          (acc.1.getD j d).firstPassDatum) ∧
    (∀ line o, oordeelOf line = some o → o ≠ "") := by
  refine ⟨processLine2_skip, processLine2_commit, ?_, oordeelOf_ne_empty⟩
  intro now acc line idx ho
  refine ⟨by simp [commitLine3, ho], ?_⟩
  intro j d
  simp only [commitLine3, ho]
  by_cases hj : j = idx
  · subst hj
    by_cases hlt : j < acc.1.length
    · rw [getD_modifyAt_self acc.1 j _ d hlt]
      exact ⟨rfl, rfl, rfl⟩
    · rw [modifyAt_oob acc.1 j _ (by omega)]
      exact ⟨rfl, rfl, rfl⟩
  · rw [getD_modifyAt_ne acc.1 idx j _ d hj]
    exact ⟨rfl, rfl, rfl⟩

/-- Witness for C5: the line `"ID:3 | Wel"` has a recoverable id but no
origin keyword, so it is dropped by step 2; a step-3 line without a verdict
leaves a previously stored rationale untouched. -/
theorem claim5_witness :
    processLine2 nowC df8 "ID:3 | Wel" = (df8, 0) ∧
    ((commitLine3 nowC (dfOud, 0) ("ID:0 | geen formaat", 0)).1.getD 0 blank3).aiRationale =
      some "oude uitleg" := by
  constructor
  · exact claim5_required_fields_guard.1 nowC df8 "ID:3 | Wel" 3 (by decide) (by decide)
  · have h := (claim5_required_fields_guard.2.2.1 nowC (dfOud, 0) "ID:0 | geen formaat" 0
      (by decide)).2 0 blank3
    rw [h.2.1]
    decide

/-- Claim C6 (corrected), counterexample.  For a committed line whose
rationale field is absent (`"ID:0 | oordeel:Plantaardig"`), the step-3
parser stores the EMPTY string — overwriting the previously stored rationale
`"oude uitleg"` — not the sentinel `"no rationale supplied"` claimed by the
specification (the string appears nowhere in the source; line 328 reads
`... if rationale_match else ""`). -/
theorem claim6_counterexample :
    ((parseResponse3 nowC dfOud [0] "ID:0 | oordeel:Plantaardig").1.getD 0 blank3).aiRationale =
      some "" ∧
    some "" ≠ some "no rationale supplied" := by
  constructor
  · decide
  · decide

/-- Claim C6 (corrected), amended.  For every committed response line the
stored rationale is `rationaleOf line`: the stripped text captured after the
literal field name `rationale` and the colon when that labelled field is
present, and the EMPTY string (not a sentinel) when it is absent. -/
theorem claim6_rationale_default (now : String) (df : List Row3) (c : Nat) (line : String)
    (idx : Nat) (d : Row3) (o : String)
    (hlt : idx < df.length) (ho : oordeelOf line = some o) :
    (((commitLine3 now (df, c) (line, idx)).1).getD idx d).aiRationale =
      some (rationaleOf line) ∧
    (searchRationale line.data = none → rationaleOf line = "") ∧
    (∀ g, searchRationale line.data = some g → rationaleOf line = pyStrip g) := by
  refine ⟨?_, ?_, ?_⟩
  · rw [commitLine3_getD_self now (df, c) (line, idx) d hlt]
    simp [rowCommit3, ho]
  · intro h
    simp [rationaleOf, h]
  · intro g h
    simp [rationaleOf, h]

/-- Witness for C6 at the rationale-free line `"ID:4 | oordeel:Dierlijk"`:
the committed rationale is the empty string. -/
theorem claim6_witness :
    ((commitLine3 nowC (dfp2, 0) ("ID:4 | oordeel:Dierlijk", 1)).1.getD 1 blank3).aiRationale =
      some "" := by
  have h := (claim6_rationale_default nowC dfp2 0 "ID:4 | oordeel:Dierlijk" 1 blank3
    "Dierlijk" (by decide) (by decide)).1
  rw [h]
  decide


/-- Claim C2 (confirmed).  A run over `N >= 1` batches performs exactly
`N / 3` intermediate checkpoint writes during the loop (one after every
batch whose number is a multiple of 3 — the write sits outside the
`try`/`except`, so it happens whether or not the batch's call failed, and
the count is the same for EVERY completion behaviour `call`), plus exactly
one unconditional final write, in both orchestrators. -/
theorem claim2_checkpoint_cadence :
    (∀ now call (df : List Row2),
      1 ≤ (chunksOf 30 (selector2 df)).length →
      (runLoop (step2 now call) 1 (chunksOf 30 (selector2 df)) (initSt df)).ckpts =
        (chunksOf 30 (selector2 df)).length / 3 ∧
      (run2 now call df).ckpts = (chunksOf 30 (selector2 df)).length / 3 + 1) ∧
    (∀ now call (df : List Row3),
      1 ≤ (chunksOf 20 (selector3 df)).length →
      (runLoop (step3 now call) 1 (chunksOf 20 (selector3 df)) (initSt df)).ckpts =
        (chunksOf 20 (selector3 df)).length / 3 ∧
      (run3 now call df).ckpts = (chunksOf 20 (selector3 df)).length / 3 + 1) := by
  constructor
  · intro now call df hN
    have hloop : (runLoop (step2 now call) 1 (chunksOf 30 (selector2 df)) (initSt df)).ckpts =
        (chunksOf 30 (selector2 df)).length / 3 := by
      rw [runLoop_ckpts, cnt3_one]
      simp [initSt]
    refine ⟨hloop, ?_⟩
    have hne : selector2 df ≠ [] := by
      intro h0
      rw [h0] at hN
      simp [chunksOf, chunksGo] at hN
    have hie := isEmpty_false_of_ne_nil _ hne
    simp only [run2, hie, Bool.false_eq_true, if_false]
    rw [← hloop]
  · intro now call df hN
    have hloop : (runLoop (step3 now call) 1 (chunksOf 20 (selector3 df)) (initSt df)).ckpts =
        (chunksOf 20 (selector3 df)).length / 3 := by
      rw [runLoop_ckpts, cnt3_one]
      simp [initSt]
    refine ⟨hloop, ?_⟩
    have hne : selector3 df ≠ [] := by
      intro h0
      rw [h0] at hN
      simp [chunksOf, chunksGo] at hN
    have hie := isEmpty_false_of_ne_nil _ hne
    simp only [run3, hie, Bool.false_eq_true, if_false]
    rw [← hloop]

/-- Witness for C2: a single-batch step-2 run and a single-batch step-3 run,
with every completion call failing, each write exactly `1/3 + 1 = 1`
checkpoint. -/
theorem claim2_witness :
    1 ≤ (chunksOf 30 (selector2 df1)).length ∧ (run2 nowC allFail df1).ckpts = 1 ∧
    1 ≤ (chunksOf 20 (selector3 dfp2)).length ∧ (run3 nowC allFail dfp2).ckpts = 1 := by
  refine ⟨by decide, ?_, by decide, ?_⟩
  · have h := (claim2_checkpoint_cadence.1 nowC allFail df1 (by decide)).2
    rw [h]
    decide
  · have h := (claim2_checkpoint_cadence.2 nowC allFail dfp2 (by decide)).2
    rw [h]
    decide

/-- Claim C9 (corrected), counterexample.  A row whose `Classificatie` holds
the non-empty value `"Onbekend"` — not a member of the step-2 terminal label
vocabulary and not empty or null — is NOT selected by the step-2
unresolved-set selector, which only tests for empty-after-strip or `NaN`
(line 149); the claim's "or not a member of the valid set" clause fails for
this stage. -/
theorem claim9_counterexample :
    selector2 dfOnbekend = [] ∧
    pdStr ((dfOnbekend.getD 0 blank2).classificatie) ∉ geldigeClass2 ∧
    pdStr ((dfOnbekend.getD 0 blank2).classificatie) ≠ "" ∧
    (dfOnbekend.getD 0 blank2).classificatie ≠ none := by
  refine ⟨by decide, by decide, by decide, by decide⟩

/-- Claim C9 (corrected), amended.  Both selectors are pure functions of the
table and return strictly increasing position lists (table order, no side
effects).  The step-3 selector satisfies the claimed contract: it selects
exactly the rows whose `First pass AI`, rendered as a string, is not in the
valid set `{Dierlijk, Plantaardig, Combinatie}` (an empty or `NaN` cell
renders as `""`/`"nan"`, which are not in the set).  The step-2 selector
instead selects exactly the rows whose `Classificatie` is empty after
stripping or null, independently of any valid-value set: a non-empty
unrecognized value counts as resolved. -/
theorem claim9_selector_semantics :
    (∀ (df : List Row3) (j : Nat),
      j ∈ selector3 df ↔ j < df.length ∧
        pdStr ((df.getD j blank3).firstPassAI) ∉ geldigeClass3) ∧
    (∀ df : List Row3, List.Pairwise (· < ·) (selector3 df)) ∧
    (∀ (df : List Row2) (j : Nat),
      j ∈ selector2 df ↔ j < df.length ∧
        (pyStrip (pdStr ((df.getD j blank2).classificatie)) = "" ∨
          (df.getD j blank2).classificatie = none)) ∧
    (∀ df : List Row2, List.Pairwise (· < ·) (selector2 df)) := by
  refine ⟨?_, fun df => selectIdx_pairwise_lt _ df blank3, ?_,
    fun df => selectIdx_pairwise_lt _ df blank2⟩
  · intro df j
    rw [selector3, mem_selectIdx]
    constructor
    · rintro ⟨h1, h2⟩
      refine ⟨h1, ?_⟩
      simpa [unresolved3, List.elem_iff] using h2
    · rintro ⟨h1, h2⟩
      refine ⟨h1, ?_⟩
      simpa [unresolved3, List.elem_iff] using h2
  · intro df j
    rw [selector2, mem_selectIdx]
    constructor
    · rintro ⟨h1, h2⟩
      refine ⟨h1, ?_⟩
      simpa [unresolved2, Option.isNone_iff_eq_none] using h2
    · rintro ⟨h1, h2⟩
      refine ⟨h1, ?_⟩
      simpa [unresolved2, Option.isNone_iff_eq_none] using h2

/-- Claim C4 (corrected), counterexample.  The step-3 product parser never
uses the id written in a line, even when one is perfectly parseable: over a
two-row batch `[0, 1]`, the response whose FIRST kept line carries the
explicit id `1` deposits that line's verdict `Dierlijk` on row `0` — the
batch item at the line's position — instead of on row `1`. -/
theorem claim4_counterexample :
    lineId (pyStrip "ID:1 | oordeel:Dierlijk | rationale:a") = some 1 ∧
    ((parseResponse3 nowC dfp2 [0, 1]
        ("ID:1 | oordeel:Dierlijk | rationale:a\nID:0 | oordeel:Plantaardig | rationale:b")).1.getD
      0 blank3).firstPassAI = some "Dierlijk" := by
  refine ⟨by decide, by decide⟩

/-- Claim C4 (corrected), amended.  The two parsers use the two id-recovery
strategies unconditionally rather than as primary-plus-fallback: the step-2
ingredient parser commits a row only when that row's index is the line's
first digit run (no positional fallback exists), while the step-3 product
parser filters the response to the lines containing `"ID:"` and always maps
the `i`-th kept line to the `i`-th batch item, ignoring any id in the line's
text. -/
theorem claim4_id_strategies :
    (∀ now (df : List Row2) line j d,
      ((processLine2 now df line).1).getD j d ≠ df.getD j d →
      lineId (pyStrip line) = some j) ∧
    (∀ now (df : List Row3) bIdx raw i d, bIdx.Nodup → i < (linesOf3 raw).length →
      i < bIdx.length → bIdx.getD i 0 < df.length →
      ((parseResponse3 now df bIdx raw).1).getD (bIdx.getD i 0) d =
        rowCommit3 now ((linesOf3 raw).getD i "") (df.getD (bIdx.getD i 0) d)) := by
  constructor
  · intro now df line j d h
    by_contra hne
    exact h (processLine2_getD_ne now df line j d hne)
  · intro now df bIdx raw i d hnd hl hb hlt
    exact parseResponse3_pos now df bIdx raw i d hnd hl hb hlt

/-- Witness for C4: a digit-bearing line that changed row 7 must have id 7
(step 2), and the first kept line of a concrete step-3 response lands on
batch item 0. -/
theorem claim4_witness :
    lineId (pyStrip "7 wel plantaardig") = some 7 ∧
    ((parseResponse3 nowC dfp2 [0, 1]
        ("ID:1 | oordeel:Dierlijk | rationale:a\nID:0 | oordeel:Plantaardig | rationale:b")).1.getD
      0 blank3) = rowCommit3 nowC "ID:1 | oordeel:Dierlijk | rationale:a" blank3 := by
  constructor
  · exact claim4_id_strategies.1 nowC df8 "7 wel plantaardig" 7 blank2 (by decide)
  · have h := claim4_id_strategies.2 nowC dfp2 [0, 1]
      ("ID:1 | oordeel:Dierlijk | rationale:a\nID:0 | oordeel:Plantaardig | rationale:b")
      0 blank3 (by decide) (by decide) (by decide) (by decide)
    exact h.trans (by decide)

/-- Claim C3 (corrected), counterexample.  In the end-to-end scenario — 45
unresolved product rows, batch size 20 (three batches), batch 2's completion
call failing — the run performs TWO full-table checkpoint writes, not the
claimed single merged one: the periodic write after batch 3 (3 % 3 == 0,
lines 343-351) AND the unconditional final save (lines 381-384), which the
source never merges with an already-performed periodic write. -/
theorem claim3_counterexample :
    (run3 nowC c3call df45).ckpts = 2 ∧ ¬((run3 nowC c3call df45).ckpts = 1) := by
  have hne : selector3 df45 ≠ [] := by decide
  have hie := isEmpty_false_of_ne_nil _ hne
  have hN : (chunksOf 20 (selector3 df45)).length = 3 := by decide
  have h2 : (run3 nowC c3call df45).ckpts = 2 := by
    simp only [run3, hie, Bool.false_eq_true, if_false]
    rw [runLoop_ckpts, hN, cnt3_one]
    simp [initSt]
  exact ⟨h2, by rw [h2]; decide⟩

set_option maxRecDepth 100000 in
/-- Claim C3 (corrected), amended.  Same scenario, with the checkpoint count
corrected from one to two: all 45 rows start unresolved and form 3 batches;
batches 1 and 3 succeed and classify their 20 + 5 rows (verdict, rationale,
timestamp and raw answer stored, 25 rows resolved in total); batch 2's 20
rows (positions 20-39) are exactly the rows still selected by the
unresolved-set selector afterwards; and exactly 2 checkpoint writes occur
(the periodic one after batch 3 plus the unconditional final save). -/
theorem claim3_amended :
    selector3 df45 = List.range 45 ∧
    (run3 nowC c3call df45).df = expected45 ∧
    selector3 ((run3 nowC c3call df45).df) = (List.range 20).map (fun k => 20 + k) ∧
    (run3 nowC c3call df45).resolved = 25 ∧
    (run3 nowC c3call df45).ckpts = 2 := by
  refine ⟨by decide, by decide, by decide, by decide, by decide⟩

/-- Claim C1 (corrected), counterexample.  Over a 31-row unresolved
ingredient table (batches `[0..29]` and `[30]`), batch 2's call fails, yet
row 30 is NOT in the unresolved set after the run: batch 1's successful
response carried the line `"ID:30 | Wel, Plantaardig"` and the step-2 parser
committed it to row 30 — a row of the failed batch — because it never checks
batch membership. -/
theorem claim1_counterexample :
    (chunksOf 30 (selector2 df31)).getD 1 [] = [30] ∧
    c1call 2 = none ∧
    30 ∉ selector2 ((run2 nowC c1call df31).df) := by
  refine ⟨by decide, by decide, by decide⟩

/-- Claim C1 (corrected), amended.  When the completion call for batch `B`
fails, `B`'s own step leaves the table untouched and contributes zero
resolved rows, and the loop continues with the next batch, in both
orchestrators.  In the step-3 product classifier — whose parser assigns
response lines positionally within the current batch — every row of `B`
keeps its verdict, rationale and timestamp and is still selected by the
unresolved-set selector after the run, unconditionally.  In the step-2
ingredient classifier the same holds PROVIDED every successful batch's
response lines carry ids of that batch's own rows (`respectsBatches`);
under that proviso the rows of every other batch end up exactly as their
own batch's response dictates over the initial table (a failed batch
elsewhere does not disturb them), while without it a successful batch may
classify rows of the failed batch, as the counterexample shows. -/
theorem claim1_failed_batch_isolation :
    (∀ now call (df : List Row2) (bs1 bs2 : List (List Nat)) (B : List Nat)
        (j : Nat) (d : Row2),
      chunksOf 30 (selector2 df) = bs1 ++ B :: bs2 →
      respectsBatches call (bs1 ++ B :: bs2) →
      j ∈ B →
      ((call (bs1.length + 1) = none →
        (∀ dfx : List Row2, step2 now call (bs1.length + 1) B dfx = (dfx, 0)) ∧
        (run2 now call df).df.getD j d = df.getD j d ∧
        j ∈ selector2 ((run2 now call df).df)) ∧
       (∀ raw, call (bs1.length + 1) = some raw →
        (run2 now call df).df.getD j d = ((processResponse2 now df raw).1).getD j d))) ∧
    (∀ now call (df : List Row3) (bs1 bs2 : List (List Nat)) (B : List Nat)
        (j : Nat) (d : Row3),
      chunksOf 20 (selector3 df) = bs1 ++ B :: bs2 →
      j ∈ B →
      call (bs1.length + 1) = none →
      (∀ dfx : List Row3, step3 now call (bs1.length + 1) B dfx = (dfx, 0)) ∧
      ((run3 now call df).df.getD j d).firstPassAI = (df.getD j d).firstPassAI ∧
      ((run3 now call df).df.getD j d).aiRationale = (df.getD j d).aiRationale ∧
      ((run3 now call df).df.getD j d).firstPassDatum = (df.getD j d).firstPassDatum ∧
      j ∈ selector3 ((run3 now call df).df)) := by
  constructor
  · intro now call df bs1 bs2 B j d hsplit hresp hj
    rcases chunks_split_nodup 30 _ bs1 bs2 B (selectIdx_nodup _ df blank2) hsplit j hj
      with ⟨hjsel, hnot1, hnot2⟩
    have hother : ∀ k, k < bs1.length + 1 + bs2.length → k ≠ bs1.length →
        ∀ raw, call (k + 1) = some raw →
          ∀ l ∈ pySplit '\n' raw, lineId (pyStrip l) ≠ some j := by
      intro k hk hkne raw hcall l hl hid
      have hk2 : k < (bs1 ++ B :: bs2).length := by
        simp only [List.length_append, List.length_cons]
        omega
      have hmem := hresp k hk2 raw hcall l hl j hid
      rcases Nat.lt_trichotomy k bs1.length with hlt | heq | hgt
      · rw [List.getD_append _ _ [] k hlt] at hmem
        exact hnot1 _ (getD_mem_of_lt bs1 k [] hlt) hmem
      · exact hkne heq
      · rw [List.getD_append_right _ _ [] k (by omega)] at hmem
        have hk3 : k - bs1.length = (k - bs1.length - 1) + 1 := by omega
        rw [hk3, List.getD_cons_succ] at hmem
        have hblen : k - bs1.length - 1 < bs2.length := by omega
        exact hnot2 _ (getD_mem_of_lt bs2 _ [] hblen) hmem
    have houtcome := run2_batch_outcome now call df bs1 bs2 B j d hsplit hother
    constructor
    · intro hfail
      refine ⟨fun dfx => by simp [step2, hfail], ?_, ?_⟩
      · rw [houtcome, hfail]
      · have hjlen : j < df.length := ((mem_selectIdx _ df blank2 j).mp hjsel).1
        have hjun : unresolved2 (df.getD j blank2) = true :=
          ((mem_selectIdx _ df blank2 j).mp hjsel).2
        have hgetb : (run2 now call df).df.getD j blank2 = df.getD j blank2 := by
          have ho2 := run2_batch_outcome now call df bs1 bs2 B j blank2 hsplit hother
          rw [ho2, hfail]
        rw [selector2, mem_selectIdx]
        refine ⟨by rw [run2_df_length]; exact hjlen, ?_⟩
        rw [hgetb]
        exact hjun
    · intro raw hsome
      rw [houtcome, hsome]
  · intro now call df bs1 bs2 B j d hsplit hj hfail
    have hrun := run3_failed_batch now call df bs1 bs2 B j d hsplit hj hfail
    refine ⟨fun dfx => by simp [step3, hfail], ?_, ?_, ?_, ?_⟩
    · rw [hrun]
      exact (reviewRow_labels _).1
    · rw [hrun]
      exact (reviewRow_labels _).2.1
    · rw [hrun]
      exact (reviewRow_labels _).2.2.1
    · have hjsel : j ∈ selector3 df := chunks_mem_selector 20 _ bs1 bs2 B hsplit j hj
      have hjlen : j < df.length := ((mem_selectIdx _ df blank3 j).mp hjsel).1
      have hjun : unresolved3 (df.getD j blank3) = true :=
        ((mem_selectIdx _ df blank3 j).mp hjsel).2
      have hgetb := run3_failed_batch now call df bs1 bs2 B j blank3 hsplit hj hfail
      rw [selector3, mem_selectIdx]
      refine ⟨by rw [run3_df_length]; exact hjlen, ?_⟩
      rw [hgetb, unresolved3_reviewRow]
      exact hjun

/-- Witness for C1: with every completion call failing, row 30 (sole member
of step-2 batch 2 over `df31`) and row 0 (member of step-3 batch 1 over
`df45`) are still selected by their unresolved-set selectors after the
respective runs. -/
theorem claim1_witness :
    30 ∈ selector2 ((run2 nowC allFail df31).df) ∧
    0 ∈ selector3 ((run3 nowC allFail df45).df) := by
  constructor
  · refine ((claim1_failed_batch_isolation.1 nowC allFail df31 [List.range 30] [] [30] 30
      blank2 (by decide) ?_ (by decide)).1 rfl).2.2
    intro k hk raw hcall
    simp [allFail] at hcall
  · exact ((claim1_failed_batch_isolation.2 nowC allFail df45 []
      [(List.range 20).map (fun k => 20 + k), (List.range 5).map (fun k => 40 + k)]
      (List.range 20) 0 blank3 (by decide) (by decide) rfl).2.2.2.2)
